import Mathlib

/-!
Shallow embedding of the LiteDB access layer (src/db.py, src/operations.py).

Python values that can appear in a query-data mapping
(TQueryData = dict[str, int | bool | str | None]) are modelled by PyVal;
mappings are association lists in insertion order, matching Python dict
iteration order.  Fallible operations return Except or pair their effect
trace with an optional raised error; executing a statement against the
connection is recorded in an Effect trace (statements executed, commits,
re-discovery runs) rather than performed.
-/

namespace LiteDB

/-- A Python value of type int, bool, str or None, as admitted by
TQueryData in operations.py. -/
inductive PyVal where
  | none
  | int (n : Int)
  | bool (b : Bool)
  | str (s : String)
deriving DecidableEq, Repr

/-- TQueryData: a Python dict from column name to value, modelled as an
association list in insertion order. -/
abbrev TQueryData := List (String × PyVal)

/-- Python dict.get with default None: the first binding of the key, or
None when the key is absent (operations.py line 186, data.get(name)). -/
def dictGet (d : TQueryData) (k : String) : PyVal :=
  match d.find? (fun p => p.1 = k) with
  | some p => p.2
  | Option.none => PyVal.none

/-- Python str() rendering of a PyVal, as interpolated by an f-string. -/
def pyStr : PyVal → String
  | PyVal.none => "None"
  | PyVal.int n => toString n
  | PyVal.bool true => "True"
  | PyVal.bool false => "False"
  | PyVal.str s => s

/-- Python str.lower on one character, restricted to ASCII (all operator
strings the builder compares are ASCII). -/
def charLower (c : Char) : Char :=
  if 65 ≤ c.toNat ∧ c.toNat ≤ 90 then Char.ofNat (c.toNat + 32) else c

/-- Python str.lower, as applied to the operator argument at
operations.py lines 47 and 83. -/
def strLower (s : String) : String := String.mk (s.data.map charLower)

/-- Errors raised by the operation layer. -/
inductive DBErr where
  | typeError (msg : String)
  | valueError (msg : String)
  | indexError
deriving DecidableEq, Repr

/-- The clause rendered for one (key, value) entry by
Operation._make_operator_query / TableOperation._make_operator_query
(operations.py lines 51-64 and 87-100; the two method bodies are
textually identical).  In parameterized mode (without_parameters false):
"key is NULL" when the value is None, else the named placeholder
"key = :key".  In literal mode: "key is NULL" for None, "key = 'value'"
for a string, "key = value" otherwise. -/
def entryClause (key : String) (value : PyVal) (withoutParameters : Bool) : String :=
  if withoutParameters = false then
    if value = PyVal.none then key ++ " is NULL" else key ++ " = :" ++ key
  else
    match value with
    | PyVal.none => key ++ " is NULL"
    | PyVal.str s => key ++ " = '" ++ s ++ "'"
    | v => key ++ " = " ++ pyStr v

/-- The supported join operators, lower-cased: the Python set
literal used in the membership test at operations.py lines 47 and 83. -/
def supportedOperators : List String := ["and", "or", ","]

/-- Operation._make_operator_query / TableOperation._make_operator_query
(operations.py lines 41-64 and 77-100, identical bodies): raises
ValueError "Incorrect operator." unless operator.lower() is one of
and/or/comma, else joins the per-entry clauses with the operator
(original case) padded by single spaces. -/
def makeOperatorQuery (data : TQueryData) (operator : String)
    (withoutParameters : Bool := false) : Except DBErr String :=
  if strLower operator ∉ supportedOperators then
    Except.error (DBErr.valueError "Incorrect operator.")
  else
    Except.ok (String.intercalate (" " ++ operator ++ " ")
      (data.map (fun p => entryClause p.1 p.2 withoutParameters)))

/-- Whether an Except value is an error. -/
def exceptIsError {ε α : Type} : Except ε α → Bool
  | Except.error _ => true
  | Except.ok _ => false

/-- One statement's bound parameters: a named mapping for cursor.execute,
or a sequence of positional tuples for cursor.executemany. -/
inductive Params where
  | named (d : TQueryData)
  | batch (rows : List (List PyVal))
deriving DecidableEq, Repr

/-- The observable effect of an operation call on the connection: the
statements executed with their parameters, the number of commit calls,
and the number of initialize_tables re-discovery runs (the last is
nonzero only for CreateTable). -/
structure Effect where
  executed : List (String × Params)
  committed : Nat
  rediscovered : Nat
deriving DecidableEq, Repr

/-- The effect of an operation that executed nothing. -/
def emptyEffect : Effect := { executed := [], committed := 0, rediscovered := 0 }

/-- Insert.query (operations.py 178-181): a positional placeholder per
element of the prepared row. -/
def insertQuery (table : String) (item : List PyVal) : String :=
  "INSERT INTO " ++ table ++ " VALUES(" ++
    String.intercalate ", " (item.map (fun _ => "?")) ++ ")"

/-- Insert._prepare_input_data (operations.py 183-188): the mapping
projected onto the table's column order, missing columns resolving to
None via dict.get. -/
def prepareInputData (columnNames : List String) (data : TQueryData) :
    List PyVal :=
  columnNames.map (fun name => dictGet data name)

/-- The runtime shape of Insert.__call__'s data argument: a single dict,
or an iterable of dicts. -/
inductive InsertArg where
  | one (d : TQueryData)
  | many (ds : List TQueryData)
deriving DecidableEq, Repr

/-- The list of mappings Insert.__call__ iterates over: a single dict is
wrapped into a one-element tuple (operations.py 195-196). -/
def insertArgDicts : InsertArg → List TQueryData
  | InsertArg.one d => [d]
  | InsertArg.many ds => ds

/-- Insert.__call__ (operations.py 190-204): prepares one positional row
per mapping; if not all prepared rows are truthy (a Python tuple is
truthy exactly when non-empty) it returns silently; otherwise it runs one
batched INSERT whose placeholder count comes from the first prepared row,
then commits.  An empty iterable passes the all() guard vacuously and
then raises IndexError at insert_data[0]. -/
def insertCall (table : String) (columnNames : List String)
    (arg : InsertArg) : Effect × Option DBErr :=
  let insertData := (insertArgDicts arg).map (prepareInputData columnNames)
  if (insertData.all (fun row => !row.isEmpty)) = false then
    (emptyEffect, Option.none)
  else
    match insertData with
    | [] => (emptyEffect, some DBErr.indexError)
    | first :: _ =>
      ({ executed := [(insertQuery table first, Params.batch insertData)],
         committed := 1, rediscovered := 0 }, Option.none)

/-- Delete.query (operations.py 210-212). -/
def deleteQuery (table : String) : String :=
  "DELETE FROM " ++ table ++ " WHERE id=?"

/-- Python dict item assignment d[k] = v: replace the binding in place
when the key exists, else append it. -/
def dictSet (d : TQueryData) (k : String) (v : PyVal) : TQueryData :=
  if d.any (fun p => p.1 = k) then
    d.map (fun p => if p.1 = k then (k, v) else p)
  else d ++ [(k, v)]

/-- Delete._filter (operations.py 214-222): raises ValueError on an empty
filter mapping, else deletes with a parameterized AND-joined WHERE clause
and commits. -/
def deleteFilter (table : String) (filterBy : TQueryData) :
    Effect × Option DBErr :=
  if filterBy.isEmpty then
    (emptyEffect, some (DBErr.valueError "Value do not be empty."))
  else
    match makeOperatorQuery filterBy "AND" false with
    | Except.error e => (emptyEffect, some e)
    | Except.ok queryAnd =>
      ({ executed := [("DELETE FROM " ++ table ++ " WHERE " ++ queryAnd,
          Params.named filterBy)],
         committed := 1, rediscovered := 0 }, Option.none)

/-- The runtime shape of Delete.__call__'s id argument when not None: a
single int (not a Python Iterable) or an iterable of ints. -/
inductive IdArg where
  | one (n : Int)
  | many (ns : List Int)
deriving DecidableEq, Repr

/-- Delete.__call__ (operations.py 224-237): an iterable id runs a single
batched DELETE ... WHERE id=? binding str(id_) for every id, commits and
returns, never reading the keyword filters; otherwise a non-None id is
written into the filters under "id" and Delete._filter runs. -/
def deleteCall (table : String) (id : Option IdArg)
    (filterBy : TQueryData) : Effect × Option DBErr :=
  match id with
  | some (IdArg.many ns) =>
    ({ executed := [(deleteQuery table,
        Params.batch (ns.map (fun i => [PyVal.str (toString i)])))],
       committed := 1, rediscovered := 0 }, Option.none)
  | some (IdArg.one n) => deleteFilter table (dictSet filterBy "id" (PyVal.int n))
  | Option.none => deleteFilter table filterBy

/-- The runtime shape of Update.__call__'s data argument, for the
isinstance(data, dict) check: a dict, or a value of any other type. -/
inductive PyArg where
  | dict (d : TQueryData)
  | nonDict (reprStr : String)
deriving DecidableEq, Repr

/-- Update.query (operations.py 243-246), with its trailing space. -/
def updateQuery (table : String) : String := "UPDATE " ++ table ++ " SET "

/-- Update.__call__ (operations.py 248-269): TypeError when data is not a
dict, ValueError when it is empty; else the SET clause comes from the
parameterized builder joined by the comma and the WHERE clause from the
literal-mode builder joined by AND, the WHERE clause is appended only
when filters were supplied, and the query runs with data as named
parameters, followed by a commit. -/
def updateCall (table : String) (data : PyArg) (filterBy : TQueryData) :
    Effect × Option DBErr :=
  match data with
  | PyArg.nonDict _ =>
    (emptyEffect, some (DBErr.typeError "Incorrect type for 'data.'"))
  | PyArg.dict d =>
    if d.isEmpty then
      (emptyEffect, some (DBErr.valueError "Argument 'data' do not be empty."))
    else
      match makeOperatorQuery d "," false with
      | Except.error e => (emptyEffect, some e)
      | Except.ok queryComa =>
        match makeOperatorQuery filterBy "AND" true with
        | Except.error e => (emptyEffect, some e)
        | Except.ok queryOperator =>
          let query := updateQuery table ++ queryComa
          let query := if filterBy.isEmpty then query
            else query ++ " WHERE " ++ queryOperator
          ({ executed := [(query, Params.named d)],
             committed := 1, rediscovered := 0 }, Option.none)

/-- An element of a columns sequence argument to CreateTable.__call__,
for the isinstance(_, str) check: a str, or a value of any other type. -/
inductive SeqItem where
  | str (s : String)
  | nonStr (reprStr : String)
deriving DecidableEq, Repr

/-- Whether a sequence element is a str. -/
def SeqItem.isStr : SeqItem → Bool
  | SeqItem.str _ => true
  | SeqItem.nonStr _ => false

/-- The text a sequence element contributes to the joined column list. -/
def SeqItem.asStr : SeqItem → String
  | SeqItem.str s => s
  | SeqItem.nonStr r => r

/-- A value of a columns mapping argument to CreateTable.__call__.
Modelled from the spec: column_types.BaseType is not in src; the spec
(sections 4.2 and 6) says a descriptor must be identifiable as a valid
descriptor instance and render to a textual column-definition fragment,
so a descriptor is carried as its rendering and anything else is tagged
nonBaseType. -/
inductive ColVal where
  | baseType (rendered : String)
  | nonBaseType (reprStr : String)
deriving DecidableEq, Repr

/-- The isinstance(_, BaseType) check on a mapping value. -/
def ColVal.isBaseType : ColVal → Bool
  | ColVal.baseType _ => true
  | ColVal.nonBaseType _ => false

/-- The str() rendering of a mapping value, as interpolated into the
column definition. -/
def ColVal.render : ColVal → String
  | ColVal.baseType r => r
  | ColVal.nonBaseType r => r

/-- The runtime shape of CreateTable.__call__'s columns argument: a
sequence, a mutable mapping, or a value of any other type. -/
inductive ColumnsArg where
  | seq (items : List SeqItem)
  | map (entries : List (String × ColVal))
  | other (reprStr : String)
deriving DecidableEq, Repr

/-- CreateTable.query (operations.py 277-286). -/
def createTableQuery (ifNotExists : Bool) : String :=
  if ifNotExists then "CREATE TABLE IF NOT EXISTS " else "CREATE TABLE "

/-- CreateTable.__call__ (operations.py 288-350): TypeError "Incorrect
type for columns" when columns is neither a sequence nor a mapping; a
sequence of strings joins them into the DDL directly; otherwise anything
that is not a mapping whose values are all BaseType raises TypeError
"Incorrect type for column item"; on success the DDL executes, the
connection commits, and initialize_tables re-runs. -/
def createTableCall (tableName : String) (columns : ColumnsArg)
    (tablePrimaryKey : Option (List String)) (ifNotExists : Bool) :
    Effect × Option DBErr :=
  let query := createTableQuery ifNotExists ++ tableName
  let primaryKey : String :=
    match tablePrimaryKey with
    | some pk => ", PRIMARY KEY(" ++ String.intercalate "," pk ++ ")"
    | Option.none => ""
  match columns with
  | ColumnsArg.other _ =>
    (emptyEffect, some (DBErr.typeError "Incorrect type for columns"))
  | ColumnsArg.seq items =>
    if items.all SeqItem.isStr then
      let columnsQuery := String.intercalate ", " (items.map SeqItem.asStr)
      ({ executed := [(query ++ "(" ++ columnsQuery ++ primaryKey ++ ")",
          Params.named [])],
         committed := 1, rediscovered := 1 }, Option.none)
    else
      (emptyEffect, some (DBErr.typeError "Incorrect type for column item"))
  | ColumnsArg.map entries =>
    if entries.all (fun p => p.2.isBaseType) then
      let columnsQuery := String.intercalate ", "
        (entries.map (fun p => p.1 ++ " " ++ p.2.render))
      ({ executed := [(query ++ " (" ++ columnsQuery ++ primaryKey ++ ")",
          Params.named [])],
         committed := 1, rediscovered := 1 }, Option.none)
    else
      (emptyEffect, some (DBErr.typeError "Incorrect type for column item"))

/-- The table binding Select reads.  Modelled from the spec: table.py is
not in src; spec section 3 gives a Table a name matching the schema and
an ordered column sequence in declaration order. -/
structure TableModel where
  name : String
  columnNames : List String
deriving DecidableEq, Repr

/-- Modelled from the spec: a Row (rows.py is not in src) holds its
owning table, the set of column names mutated since construction, and
the mapping from column name to value (spec section 3, Row). -/
structure Row where
  tableName : String
  changedColumns : List String
  values : List (String × PyVal)
deriving DecidableEq, Repr

/-- Select.query (operations.py 110-113). -/
def selectQuery (table : TableModel) : String := "SELECT * FROM " ++ table.name

/-- Select._as_list_row (operations.py 135-144): each result tuple is
wrapped into a Row by zipping it positionally with the table's column
names, with an empty changed-columns set. -/
def asListRow (table : TableModel) (items : List (List PyVal)) : List Row :=
  items.map (fun item =>
    { tableName := table.name, changedColumns := [],
      values := table.columnNames.zip item })

/-- A cursor model: the result set the connection returns for a query
text with named parameters.  fetchmany(size) returns its first size
rows, fetchall all of them. -/
abbrev Cursor := String → TQueryData → List (List PyVal)

/-- Select._execute (operations.py 115-133): fetchmany when a nonzero
size is given, else fetchall, wrapped by _as_list_row. -/
def selectExecute (table : TableModel) (cursor : Cursor) (query : String)
    (parameters : TQueryData) (size : Nat) : List Row :=
  if size ≠ 0 then asListRow table ((cursor query parameters).take size)
  else asListRow table (cursor query parameters)

/-- Select._filter (operations.py 146-161): appends a WHERE clause built
by the parameterized builder to the base query and executes it with the
filters as named parameters. -/
def selectFilter (table : TableModel) (cursor : Cursor)
    (filterBy : TQueryData) (size : Nat) (operator : String) :
    Except DBErr (List Row) :=
  match makeOperatorQuery filterBy operator false with
  | Except.error e => Except.error e
  | Except.ok operatorQuery =>
    Except.ok (selectExecute table cursor
      (selectQuery table ++ " WHERE " ++ operatorQuery) filterBy size)

/-- Select.__call__ (operations.py 163-172): the filtered path when any
keyword filters were given, else the base query with empty parameters. -/
def selectCall (table : TableModel) (cursor : Cursor) (size : Nat)
    (operator : String) (filterBy : TQueryData) : Except DBErr (List Row) :=
  if filterBy.isEmpty = false then selectFilter table cursor filterBy size operator
  else Except.ok (selectExecute table cursor (selectQuery table) [] size)

/-- The registry state DB.initialize_tables reads and writes: the
attribute names bound on the DB object (lower-cased table handles plus
any pre-existing attributes), the table_names set (insertion ordered),
and the cached tables tuple (db.py lines 39 and 72-78). -/
structure DBState where
  attrs : List String
  tableNames : List String
  tablesCache : Option (List String)
deriving DecidableEq, Repr

/-- Python set.add on the insertion-ordered model of a set. -/
def insertSet (x : String) (l : List String) : List String :=
  if x ∈ l then l else l ++ [x]

/-- The custom_tables loop of DB.initialize_tables (db.py 51-56): each
pre-registered table whose lower-cased name is already an attribute is
skipped; otherwise the attribute is bound and the name is added to
table_names in its original case. -/
def customPass : List String → DBState → DBState
  | [], s => s
  | n :: rest, s =>
    if strLower n ∈ s.attrs then customPass rest s
    else customPass rest
      { s with
        attrs := s.attrs ++ [strLower n],
        tableNames := insertSet n s.tableNames }

/-- The sqlite_master loop of DB.initialize_tables (db.py 58-68): each
fetched table name whose lower-cased form is already an attribute is
skipped; otherwise a new Table is bound under the lower-cased name and
that name is added to table_names. -/
def catalogPass : List String → DBState → DBState
  | [], s => s
  | n :: rest, s =>
    if strLower n ∈ s.attrs then catalogPass rest s
    else catalogPass rest
      { s with
        attrs := s.attrs ++ [strLower n],
        tableNames := insertSet (strLower n) s.tableNames }

/-- DB.initialize_tables (db.py 44-70): the custom-tables loop, then the
catalog loop over the names the sqlite_master query returned, then
invalidation of the cached tables tuple. -/
def initialize_tables (custom : List String) (catalog : List String)
    (s : DBState) : DBState :=
  { catalogPass catalog (customPass custom s) with tablesCache := Option.none }

end LiteDB

namespace LiteDB

/-- C2: for every data mapping and operator string, the clause builder
raises ValueError exactly when the operator, lower-cased, is none of
AND, OR or the comma; for a supported operator it never raises. -/
theorem makeOperatorQuery_valueError_iff (data : TQueryData) (operator : String)
    (withoutParameters : Bool) :
    exceptIsError (makeOperatorQuery data operator withoutParameters) = true ↔
      strLower operator ∉ supportedOperators := by
  unfold makeOperatorQuery
  by_cases h : strLower operator ∉ supportedOperators
  · simp [h, exceptIsError]
  · simp [h, exceptIsError]

/-- C3: a None value renders as an IS-NULL test in both parameterized and
literal mode and never as an equality; a non-None value renders as the
named placeholder "key = :key" in parameterized mode; and for a supported
operator the builder output is exactly the per-entry clauses joined by the
operator. -/
theorem entryClause_null_and_placeholder (key : String) :
    (∀ withoutParameters : Bool,
      entryClause key PyVal.none withoutParameters = key ++ " is NULL") ∧
    (∀ value : PyVal, value ≠ PyVal.none →
      entryClause key value false = key ++ " = :" ++ key) ∧
    (∀ (data : TQueryData) (operator : String) (withoutParameters : Bool),
      strLower operator ∈ supportedOperators →
      makeOperatorQuery data operator withoutParameters =
        Except.ok (String.intercalate (" " ++ operator ++ " ")
          (data.map (fun p => entryClause p.1 p.2 withoutParameters)))) := by
  refine ⟨?_, ?_, ?_⟩
  · intro wp
    cases wp <;> simp [entryClause]
  · intro value hv
    simp [entryClause, hv]
  · intro data operator wp hop
    simp [makeOperatorQuery, hop]

/-- Witness for C3 at key "age", value 7, data [("age", 7)], operator
"OR" in parameterized mode. -/
theorem entryClause_null_and_placeholder_witness :
    entryClause "age" PyVal.none false = "age is NULL" ∧
    entryClause "age" (PyVal.int 7) false = "age = :age" ∧
    makeOperatorQuery [("age", PyVal.int 7)] "OR" false =
      Except.ok "age = :age" := by
  refine ⟨(entryClause_null_and_placeholder "age").1 false,
    (entryClause_null_and_placeholder "age").2.1 (PyVal.int 7) (by decide), ?_⟩
  have h := (entryClause_null_and_placeholder "age").2.2
    [("age", PyVal.int 7)] "OR" false (by decide)
  rw [h]
  rfl

/-- The prepared row for a mapping is empty exactly when the table's
column list is empty. -/
theorem prepareInputData_isEmpty (cols : List String) (d : TQueryData) :
    (prepareInputData cols d).isEmpty = cols.isEmpty := by
  cases cols <;> rfl

/-- C1, counterexample: inserting a single mapping whose only column
resolves to the null marker does not write zero rows — the prepared row
(None,) is a non-empty tuple, hence truthy, so a one-row batched INSERT
executes with a commit. -/
theorem insert_allNull_row_written_cex :
    insertCall "t" ["a"] (InsertArg.one [("a", PyVal.none)]) ≠
      (emptyEffect, Option.none) ∧
    insertCall "t" ["a"] (InsertArg.one [("a", PyVal.none)]) =
      ({ executed := [("INSERT INTO t VALUES(?)", Params.batch [[PyVal.none]])],
         committed := 1, rediscovered := 0 }, Option.none) := by
  constructor
  · intro h
    have := congrArg (fun p => (Prod.fst p).committed) h
    simp [insertCall, insertArgDicts, prepareInputData, dictGet, emptyEffect] at this
  · rfl

/-- C1, amended: the whole insert is silently skipped (nothing executed,
no commit, no error) exactly when the table's column list is empty and at
least one mapping was supplied — a prepared row is a Python tuple, falsy
only when empty.  In particular a single mapping whose every column
resolves to the null marker yields a non-empty all-null prepared row, so
one batched INSERT executes and the connection commits. -/
theorem insertCall_skip_iff (table : String) (cols : List String) :
    (∀ arg : InsertArg,
      insertCall table cols arg = (emptyEffect, Option.none) ↔
        (cols = [] ∧ insertArgDicts arg ≠ [])) ∧
    (∀ d : TQueryData, cols ≠ [] →
      insertCall table cols (InsertArg.one d) =
        ({ executed := [(insertQuery table (prepareInputData cols d),
            Params.batch [prepareInputData cols d])],
           committed := 1, rediscovered := 0 }, Option.none)) := by
  constructor
  · intro arg
    unfold insertCall
    cases hds : insertArgDicts arg with
    | nil =>
      simp only [List.map_nil, List.all_nil]
      constructor
      · intro h
        exact absurd (congrArg Prod.snd h) (by simp)
      · rintro ⟨-, hne⟩
        exact absurd rfl hne
    | cons d rest =>
      cases hc : cols with
      | nil =>
        have hrow : prepareInputData [] d = [] := rfl
        simp [hrow, prepareInputData]
      | cons c cs =>
        have hrow : ∀ e : TQueryData,
            (prepareInputData (c :: cs) e).isEmpty = false := by
          intro e; rfl
        have hall : ((List.map (prepareInputData (c :: cs)) rest).all
            fun row => !row.isEmpty) = true := by
          refine List.all_eq_true.mpr ?_
          intro row hmem
          obtain ⟨e, -, rfl⟩ := List.mem_map.mp hmem
          simp [hrow]
        simp only [List.map_cons, List.all_cons, hrow, Bool.not_false,
          Bool.true_and, hall]
        rw [if_neg (by decide : ¬ (true = false))]
        constructor
        · intro h
          have := congrArg (fun p => (Prod.fst p).executed) h
          simp [emptyEffect] at this
        · rintro ⟨h, -⟩
          exact absurd h (by simp)
  · intro d hcols
    unfold insertCall
    cases hc : cols with
    | nil => exact absurd hc hcols
    | cons c cs =>
      have hrow : (prepareInputData (c :: cs) d).isEmpty = false := rfl
      simp [insertArgDicts, hrow]

/-- Witness for the amended C1 at a one-column table: the mapping
assigning None to the single column is not skipped and produces a one-row
all-null batched INSERT, and the insert over zero columns is skipped. -/
theorem insertCall_skip_iff_witness :
    insertCall "w" ["a"] (InsertArg.one [("a", PyVal.none)]) =
      ({ executed := [(insertQuery "w" (prepareInputData ["a"] [("a", PyVal.none)]),
          Params.batch [prepareInputData ["a"] [("a", PyVal.none)]])],
         committed := 1, rediscovered := 0 }, Option.none) ∧
    (insertCall "w" [] (InsertArg.one []) = (emptyEffect, Option.none) ↔
      (([] : List String) = [] ∧ insertArgDicts (InsertArg.one []) ≠ [])) := by
  exact ⟨(insertCall_skip_iff "w" ["a"]).2 [("a", PyVal.none)] (by decide),
    (insertCall_skip_iff "w" []).1 (InsertArg.one [])⟩

/-- C4: for a non-empty assignment mapping, Update builds
"UPDATE table SET " plus the comma-joined clause from the parameterized
builder, appends " WHERE " plus the literal-mode AND-joined clause
exactly when at least one filter was supplied, and executes the query
once with the assignments as named parameters followed by one commit. -/
theorem updateCall_query_shape (table : String) (d filterBy : TQueryData)
    (setClause whereClause : String) (hd : d ≠ [])
    (hset : makeOperatorQuery d "," false = Except.ok setClause)
    (hwhere : makeOperatorQuery filterBy "AND" true = Except.ok whereClause) :
    updateCall table (PyArg.dict d) filterBy =
      ({ executed := [((if filterBy.isEmpty then updateQuery table ++ setClause
            else updateQuery table ++ setClause ++ " WHERE " ++ whereClause),
          Params.named d)],
         committed := 1, rediscovered := 0 }, Option.none) := by
  have hde : d.isEmpty = false := by
    cases d with
    | nil => exact absurd rfl hd
    | cons a l => rfl
  unfold updateCall
  dsimp only
  rw [hde, hset, hwhere]
  simp

/-- Witness for C4 at table "t", assignments [("a", 1)], filters
[("b", "z")]. -/
theorem updateCall_query_shape_witness :
    updateCall "t" (PyArg.dict [("a", PyVal.int 1)]) [("b", PyVal.str "z")] =
      ({ executed := [((if ([("b", PyVal.str "z")] : TQueryData).isEmpty then
            updateQuery "t" ++ "a = :a"
            else updateQuery "t" ++ "a = :a" ++ " WHERE " ++ "b = 'z'"),
          Params.named [("a", PyVal.int 1)])],
         committed := 1, rediscovered := 0 }, Option.none) :=
  updateCall_query_shape "t" [("a", PyVal.int 1)] [("b", PyVal.str "z")]
    "a = :a" "b = 'z'" (by decide) (by rfl) (by rfl)

/-- C7: Update raises TypeError on a non-dict assignment argument and
ValueError on an empty assignment mapping; in both cases nothing has been
executed or committed, so the database state is unchanged. -/
theorem updateCall_rejects (table : String) (reprStr : String)
    (filterBy : TQueryData) :
    updateCall table (PyArg.nonDict reprStr) filterBy =
      (emptyEffect, some (DBErr.typeError "Incorrect type for 'data.'")) ∧
    updateCall table (PyArg.dict []) filterBy =
      (emptyEffect, some (DBErr.valueError "Argument 'data' do not be empty.")) := by
  exact ⟨rfl, rfl⟩

/-- Writing a key into a mapping never yields an empty mapping. -/
theorem dictSet_ne_nil (d : TQueryData) (k : String) (v : PyVal) :
    dictSet d k v ≠ [] := by
  unfold dictSet
  by_cases h : d.any (fun p => p.1 = k)
  · rw [if_pos h]
    intro hmap
    rw [List.map_eq_nil_iff] at hmap
    subst hmap
    simp [List.any_nil] at h
  · rw [if_neg h]
    simp

/-- C8: Delete raises ValueError when called with neither an id nor any
keyword filter, executing nothing; with a single id, the id joins the
filters under key "id" and a parameterized AND-joined DELETE executes and
commits; with keyword filters alone the same parameterized AND-joined
DELETE executes over them and commits. -/
theorem deleteCall_requires_filter (table : String) :
    (deleteCall table Option.none [] =
      (emptyEffect, some (DBErr.valueError "Value do not be empty."))) ∧
    (∀ (n : Int) (filterBy : TQueryData) (clause : String),
      makeOperatorQuery (dictSet filterBy "id" (PyVal.int n)) "AND" false =
        Except.ok clause →
      deleteCall table (some (IdArg.one n)) filterBy =
        ({ executed := [("DELETE FROM " ++ table ++ " WHERE " ++ clause,
            Params.named (dictSet filterBy "id" (PyVal.int n)))],
           committed := 1, rediscovered := 0 }, Option.none)) ∧
    (∀ (filterBy : TQueryData) (clause : String), filterBy ≠ [] →
      makeOperatorQuery filterBy "AND" false = Except.ok clause →
      deleteCall table Option.none filterBy =
        ({ executed := [("DELETE FROM " ++ table ++ " WHERE " ++ clause,
            Params.named filterBy)],
           committed := 1, rediscovered := 0 }, Option.none)) := by
  refine ⟨rfl, ?_, ?_⟩
  · intro n filterBy clause hclause
    have hne : (dictSet filterBy "id" (PyVal.int n)).isEmpty = false := by
      cases hs : dictSet filterBy "id" (PyVal.int n) with
      | nil => exact absurd hs (dictSet_ne_nil filterBy "id" (PyVal.int n))
      | cons a l => rfl
    unfold deleteCall deleteFilter
    dsimp only
    rw [hne, hclause]
    simp
  · intro filterBy clause hne hclause
    have hie : filterBy.isEmpty = false := by
      cases filterBy with
      | nil => exact absurd rfl hne
      | cons a l => rfl
    unfold deleteCall deleteFilter
    dsimp only
    rw [hie, hclause]
    simp

/-- Witness for C8 at table "t", id 5 with no filters, and a filter
mapping [("x", 9)] with no id. -/
theorem deleteCall_requires_filter_witness :
    deleteCall "t" (some (IdArg.one 5)) [] =
      ({ executed := [("DELETE FROM " ++ "t" ++ " WHERE " ++ "id = :id",
          Params.named (dictSet [] "id" (PyVal.int 5)))],
         committed := 1, rediscovered := 0 }, Option.none) ∧
    deleteCall "t" Option.none [("x", PyVal.int 9)] =
      ({ executed := [("DELETE FROM " ++ "t" ++ " WHERE " ++ "x = :x",
          Params.named [("x", PyVal.int 9)])],
         committed := 1, rediscovered := 0 }, Option.none) :=
  ⟨(deleteCall_requires_filter "t").2.1 5 [] "id = :id" (by rfl),
   (deleteCall_requires_filter "t").2.2 [("x", PyVal.int 9)] "x = :x"
     (by decide) (by rfl)⟩

/-- C10: with an iterable of ids, Delete runs exactly one batched
DELETE ... WHERE id=? statement binding the string rendering of each id,
commits once, and returns without reading the keyword filters, which may
be arbitrary. -/
theorem deleteCall_iterable_batch (table : String) (ns : List Int)
    (filterBy : TQueryData) :
    deleteCall table (some (IdArg.many ns)) filterBy =
      ({ executed := [(deleteQuery table,
          Params.batch (ns.map (fun i => [PyVal.str (toString i)])))],
         committed := 1, rediscovered := 0 }, Option.none) := rfl

/-- C9: CreateTable raises TypeError "Incorrect type for columns" when
the columns argument is neither a sequence nor a mapping, and TypeError
"Incorrect type for column item" when it is a mapping with a value that
is not a BaseType descriptor; in both cases nothing executes.  On either
success path (a sequence of strings, or a mapping whose values are all
descriptors) exactly one DDL statement executes, the connection commits
once, and initialize_tables re-runs once with no error raised. -/
theorem createTableCall_checks (tableName : String)
    (pk : Option (List String)) (ifNotExists : Bool) :
    (∀ reprStr : String,
      createTableCall tableName (ColumnsArg.other reprStr) pk ifNotExists =
        (emptyEffect, some (DBErr.typeError "Incorrect type for columns"))) ∧
    (∀ entries : List (String × ColVal),
      (entries.all fun p => p.2.isBaseType) = false →
      createTableCall tableName (ColumnsArg.map entries) pk ifNotExists =
        (emptyEffect, some (DBErr.typeError "Incorrect type for column item"))) ∧
    (∀ entries : List (String × ColVal),
      (entries.all fun p => p.2.isBaseType) = true →
      (createTableCall tableName (ColumnsArg.map entries) pk ifNotExists).2 =
        Option.none ∧
      (createTableCall tableName (ColumnsArg.map entries) pk
        ifNotExists).1.executed.length = 1 ∧
      (createTableCall tableName (ColumnsArg.map entries) pk
        ifNotExists).1.committed = 1 ∧
      (createTableCall tableName (ColumnsArg.map entries) pk
        ifNotExists).1.rediscovered = 1) ∧
    (∀ items : List SeqItem, (items.all SeqItem.isStr) = true →
      (createTableCall tableName (ColumnsArg.seq items) pk ifNotExists).2 =
        Option.none ∧
      (createTableCall tableName (ColumnsArg.seq items) pk
        ifNotExists).1.executed.length = 1 ∧
      (createTableCall tableName (ColumnsArg.seq items) pk
        ifNotExists).1.committed = 1 ∧
      (createTableCall tableName (ColumnsArg.seq items) pk
        ifNotExists).1.rediscovered = 1) := by
  refine ⟨fun reprStr => rfl, ?_, ?_, ?_⟩
  · intro entries hbad
    unfold createTableCall
    dsimp only
    rw [hbad]
    simp
  · intro entries hgood
    unfold createTableCall
    dsimp only
    rw [hgood]
    simp
  · intro items hstr
    unfold createTableCall
    dsimp only
    rw [hstr]
    simp

/-- Witness for C9: a mapping with a non-descriptor value is rejected,
and a mapping with one INTEGER descriptor succeeds with one executed
statement, one commit and one re-discovery. -/
theorem createTableCall_checks_witness :
    createTableCall "t" (ColumnsArg.map [("id", ColVal.nonBaseType "int")])
      (some ["id"]) true =
      (emptyEffect, some (DBErr.typeError "Incorrect type for column item")) ∧
    (createTableCall "t" (ColumnsArg.map [("id", ColVal.baseType "INTEGER")])
      (some ["id"]) true).2 = Option.none ∧
    (createTableCall "t" (ColumnsArg.map [("id", ColVal.baseType "INTEGER")])
      (some ["id"]) true).1.committed = 1 := by
  refine ⟨(createTableCall_checks "t" (some ["id"]) true).2.1
    [("id", ColVal.nonBaseType "int")] (by decide), ?_, ?_⟩
  · exact ((createTableCall_checks "t" (some ["id"]) true).2.2.1
      [("id", ColVal.baseType "INTEGER")] (by decide)).1
  · exact ((createTableCall_checks "t" (some ["id"]) true).2.2.1
      [("id", ColVal.baseType "INTEGER")] (by decide)).2.2.1

/-- Every row produced by Select._as_list_row has an empty
changed-columns set. -/
theorem asListRow_changed (table : TableModel) (items : List (List PyVal)) :
    ∀ r ∈ asListRow table items, r.changedColumns = [] := by
  intro r hr
  obtain ⟨item, -, rfl⟩ := List.mem_map.mp hr
  rfl

/-- Every row produced by Select._execute has an empty changed-columns
set. -/
theorem selectExecute_changed (table : TableModel) (cursor : Cursor)
    (query : String) (parameters : TQueryData) (size : Nat) :
    ∀ r ∈ selectExecute table cursor query parameters size,
      r.changedColumns = [] := by
  intro r hr
  unfold selectExecute at hr
  by_cases hsz : size ≠ 0
  · rw [if_pos hsz] at hr
    exact asListRow_changed table _ r hr
  · rw [if_neg hsz] at hr
    exact asListRow_changed table _ r hr

/-- C6: with no keyword filters Select executes the base query
"SELECT * FROM table" with empty parameters and returns every fetched
row, or only the first N when a nonzero size is given (size 0 meaning
unlimited); with keyword filters it executes the base query plus a WHERE
clause from the parameterized builder joined by the given operator, with
the filters as named parameters; and every returned Row carries an empty
changed-columns set. -/
theorem selectCall_semantics (table : TableModel) (cursor : Cursor)
    (size : Nat) (operator : String) :
    (selectCall table cursor size operator [] =
      Except.ok (asListRow table (if size = 0 then
        cursor (selectQuery table) []
        else (cursor (selectQuery table) []).take size))) ∧
    (∀ (filterBy : TQueryData) (clause : String), filterBy ≠ [] →
      makeOperatorQuery filterBy operator false = Except.ok clause →
      selectCall table cursor size operator filterBy =
        Except.ok (asListRow table (if size = 0 then
          cursor (selectQuery table ++ " WHERE " ++ clause) filterBy
          else (cursor (selectQuery table ++ " WHERE " ++ clause)
            filterBy).take size))) ∧
    (∀ (filterBy : TQueryData) (rows : List Row),
      selectCall table cursor size operator filterBy = Except.ok rows →
      ∀ r ∈ rows, r.changedColumns = []) := by
  refine ⟨?_, ?_, ?_⟩
  · unfold selectCall selectExecute
    by_cases hsz : size = 0
    · simp [hsz]
    · simp [hsz]
  · intro filterBy clause hne hclause
    have hie : filterBy.isEmpty = false := by
      cases filterBy with
      | nil => exact absurd rfl hne
      | cons a l => rfl
    unfold selectCall selectFilter selectExecute
    rw [hie, hclause]
    by_cases hsz : size = 0
    · simp [hsz]
    · simp [hsz]
  · intro filterBy rows h
    unfold selectCall at h
    by_cases hie : filterBy.isEmpty = false
    · rw [if_pos hie] at h
      unfold selectFilter at h
      cases hmq : makeOperatorQuery filterBy operator false with
      | error e => rw [hmq] at h; simp at h
      | ok clause =>
        rw [hmq] at h
        injection h with h
        subst h
        exact selectExecute_changed table cursor _ filterBy size
    · rw [if_neg hie] at h
      injection h with h
      subst h
      exact selectExecute_changed table cursor _ [] size

/-- Witness for C6: a two-column table with a constant two-row cursor,
size 1 and no filters keeps the first row only; a one-column filter query
with operator "or" returns the wrapped row with an empty changed set. -/
theorem selectCall_semantics_witness :
    selectCall ⟨"t", ["id", "name"]⟩
      (fun _ _ => [[PyVal.int 1, PyVal.str "a"], [PyVal.int 2, PyVal.str "b"]])
      1 "AND" [] =
      Except.ok (asListRow ⟨"t", ["id", "name"]⟩
        (if (1 : Nat) = 0 then
          (fun (_ : String) (_ : TQueryData) =>
            [[PyVal.int 1, PyVal.str "a"], [PyVal.int 2, PyVal.str "b"]])
            (selectQuery ⟨"t", ["id", "name"]⟩) []
          else ((fun (_ : String) (_ : TQueryData) =>
            [[PyVal.int 1, PyVal.str "a"], [PyVal.int 2, PyVal.str "b"]])
            (selectQuery ⟨"t", ["id", "name"]⟩) []).take 1)) ∧
    selectCall ⟨"t", ["id"]⟩ (fun _ _ => [[PyVal.int 7]]) 0 "or"
      [("id", PyVal.int 7)] =
      Except.ok [{ tableName := "t", changedColumns := [], values := [("id", PyVal.int 7)] }] := by
  constructor
  · exact (selectCall_semantics ⟨"t", ["id", "name"]⟩
      (fun _ _ => [[PyVal.int 1, PyVal.str "a"], [PyVal.int 2, PyVal.str "b"]])
      1 "AND").1
  · have h := (selectCall_semantics ⟨"t", ["id"]⟩ (fun _ _ => [[PyVal.int 7]])
      0 "or").2.1 [("id", PyVal.int 7)] "id = :id" (by decide) (by rfl)
    rw [h]
    rfl

/-- The custom-tables loop only adds attributes, never removes them. -/
theorem customPass_attrs_mono (ns : List String) (s : DBState) (a : String)
    (h : a ∈ s.attrs) : a ∈ (customPass ns s).attrs := by
  induction ns generalizing s with
  | nil => exact h
  | cons n rest ih =>
    unfold customPass
    by_cases hn : strLower n ∈ s.attrs
    · rw [if_pos hn]
      exact ih s h
    · rw [if_neg hn]
      exact ih _ (List.mem_append_left _ h)

/-- The catalog loop only adds attributes, never removes them. -/
theorem catalogPass_attrs_mono (ns : List String) (s : DBState) (a : String)
    (h : a ∈ s.attrs) : a ∈ (catalogPass ns s).attrs := by
  induction ns generalizing s with
  | nil => exact h
  | cons n rest ih =>
    unfold catalogPass
    by_cases hn : strLower n ∈ s.attrs
    · rw [if_pos hn]
      exact ih s h
    · rw [if_neg hn]
      exact ih _ (List.mem_append_left _ h)

/-- After the custom-tables loop, every processed name is bound as an
attribute under its lower-cased form. -/
theorem customPass_mem (ns : List String) (s : DBState) :
    ∀ n ∈ ns, strLower n ∈ (customPass ns s).attrs := by
  induction ns generalizing s with
  | nil => intro n hn; cases hn
  | cons m rest ih =>
    intro n hn
    unfold customPass
    by_cases hm : strLower m ∈ s.attrs
    · rw [if_pos hm]
      cases List.mem_cons.mp hn with
      | inl he =>
        subst he
        exact customPass_attrs_mono rest s _ hm
      | inr hr => exact ih s n hr
    · rw [if_neg hm]
      cases List.mem_cons.mp hn with
      | inl he =>
        subst he
        exact customPass_attrs_mono rest _ _
          (List.mem_append_right _ (List.mem_singleton.mpr rfl))
      | inr hr => exact ih _ n hr

/-- After the catalog loop, every processed name is bound as an attribute
under its lower-cased form. -/
theorem catalogPass_mem (ns : List String) (s : DBState) :
    ∀ n ∈ ns, strLower n ∈ (catalogPass ns s).attrs := by
  induction ns generalizing s with
  | nil => intro n hn; cases hn
  | cons m rest ih =>
    intro n hn
    unfold catalogPass
    by_cases hm : strLower m ∈ s.attrs
    · rw [if_pos hm]
      cases List.mem_cons.mp hn with
      | inl he =>
        subst he
        exact catalogPass_attrs_mono rest s _ hm
      | inr hr => exact ih s n hr
    · rw [if_neg hm]
      cases List.mem_cons.mp hn with
      | inl he =>
        subst he
        exact catalogPass_attrs_mono rest _ _
          (List.mem_append_right _ (List.mem_singleton.mpr rfl))
      | inr hr => exact ih _ n hr

/-- The custom-tables loop is the identity when every processed name is
already bound. -/
theorem customPass_skip (ns : List String) (s : DBState)
    (h : ∀ n ∈ ns, strLower n ∈ s.attrs) : customPass ns s = s := by
  induction ns with
  | nil => rfl
  | cons m rest ih =>
    unfold customPass
    rw [if_pos (h m (List.mem_cons_self m rest))]
    exact ih (fun n hn => h n (List.mem_cons_of_mem m hn))

/-- The catalog loop is the identity when every processed name is already
bound. -/
theorem catalogPass_skip (ns : List String) (s : DBState)
    (h : ∀ n ∈ ns, strLower n ∈ s.attrs) : catalogPass ns s = s := by
  induction ns with
  | nil => rfl
  | cons m rest ih =>
    unfold catalogPass
    rw [if_pos (h m (List.mem_cons_self m rest))]
    exact ih (fun n hn => h n (List.mem_cons_of_mem m hn))

/-- Adding a name to the Python-set model preserves the absence of
duplicates. -/
theorem insertSet_nodup (x : String) (l : List String) (h : l.Nodup) :
    (insertSet x l).Nodup := by
  unfold insertSet
  by_cases hx : x ∈ l
  · rw [if_pos hx]
    exact h
  · rw [if_neg hx]
    refine List.Nodup.append h (List.nodup_singleton x) ?_
    intro a ha hb
    rw [List.mem_singleton] at hb
    subst hb
    exact hx ha

/-- The custom-tables loop never duplicates a table name. -/
theorem customPass_nodup (ns : List String) (s : DBState)
    (h : s.tableNames.Nodup) : (customPass ns s).tableNames.Nodup := by
  induction ns generalizing s with
  | nil => exact h
  | cons n rest ih =>
    unfold customPass
    by_cases hn : strLower n ∈ s.attrs
    · rw [if_pos hn]
      exact ih s h
    · rw [if_neg hn]
      exact ih _ (insertSet_nodup n s.tableNames h)

/-- The catalog loop never duplicates a table name. -/
theorem catalogPass_nodup (ns : List String) (s : DBState)
    (h : s.tableNames.Nodup) : (catalogPass ns s).tableNames.Nodup := by
  induction ns generalizing s with
  | nil => exact h
  | cons n rest ih =>
    unfold catalogPass
    by_cases hn : strLower n ∈ s.attrs
    · rw [if_pos hn]
      exact ih s h
    · rw [if_neg hn]
      exact ih _ (insertSet_nodup (strLower n) s.tableNames h)

/-- C5: schema discovery is idempotent — with the same pre-registered
custom tables and the same catalog, a second initialize_tables run leaves
the registry (attributes, table_names and the invalidated tables cache)
exactly as the first run left it, because every already-bound name is
skipped; and discovery never duplicates a table name. -/
theorem initialize_tables_idempotent (custom catalog : List String)
    (s : DBState) :
    initialize_tables custom catalog (initialize_tables custom catalog s) =
      initialize_tables custom catalog s ∧
    (s.tableNames.Nodup →
      (initialize_tables custom catalog s).tableNames.Nodup) := by
  constructor
  · unfold initialize_tables
    have h1 : ∀ n ∈ custom, strLower n ∈
        ({ catalogPass catalog (customPass custom s) with
           tablesCache := Option.none } : DBState).attrs :=
      fun n hn => catalogPass_attrs_mono catalog (customPass custom s) _
        (customPass_mem custom s n hn)
    rw [customPass_skip custom _ h1]
    have h2 : ∀ n ∈ catalog, strLower n ∈
        ({ catalogPass catalog (customPass custom s) with
           tablesCache := Option.none } : DBState).attrs :=
      fun n hn => catalogPass_mem catalog (customPass custom s) n hn
    rw [catalogPass_skip catalog _ h2]
  · intro h
    exact catalogPass_nodup catalog _ (customPass_nodup custom s h)

/-- Witness for C5: a database with one pre-registered custom table
"Person", a catalog listing "person" and "orders", and a pre-existing
attribute "path" reaches the same registry under a second discovery run,
with no duplicated table name. -/
theorem initialize_tables_idempotent_witness :
    initialize_tables ["Person"] ["person", "orders"]
      (initialize_tables ["Person"] ["person", "orders"]
        ⟨["path"], [], some []⟩) =
      initialize_tables ["Person"] ["person", "orders"]
        ⟨["path"], [], some []⟩ ∧
    (initialize_tables ["Person"] ["person", "orders"]
      ⟨["path"], [], some []⟩).tableNames.Nodup :=
  ⟨(initialize_tables_idempotent ["Person"] ["person", "orders"]
      ⟨["path"], [], some []⟩).1,
   (initialize_tables_idempotent ["Person"] ["person", "orders"]
      ⟨["path"], [], some []⟩).2 (by decide)⟩

end LiteDB
